import Mathlib

/-!
# Shallow embedding of the `scribe` pipeline orchestrator (src/main.rs)

`scribe` drives a three-stage pipeline: an `ffmpeg` audio-capture child
process (stopped with SIGINT after a key press), a `whisper` transcription
process whose standard output is decoded as UTF-8, and a `cb copy` delivery
process that receives the transcript on its standard input.

The embedding below mirrors `main.rs`:

* configuration loading and merging (`load_config`, `merged_config`,
  lines 49-75) as pure functions; the filesystem read and the TOML parse are
  abstracted as inputs (the result of `fs::read_to_string(..).ok()` and of
  `toml::from_str(..).ok()`), since both are external effects;
* the `ffmpeg` argument vector built in `main` (lines 100-114) as
  `ffmpegArgs` / `captureCmdArgs`;
* the session body after the `ffmpeg` child has been spawned
  (lines 116-179) as the function `runSession`, driven by an environment
  `Env` that records the outcome of every fallible external interaction
  (terminal writes, the key-press read, signal delivery, child waits, the
  `whisper` run, the `cb` spawn/write/wait), in source order.  Each `?` in
  the Rust propagates an error; the embedding returns the corresponding
  `RunError` at the same program point.  `runSession` also returns a
  `Trace` recording the externally observable effects (signal delivered,
  capture child waited on, `whisper` invoked, `cb` invoked, bytes written
  to `cb`'s standard input), which the temporal claims are stated against.

Machine integers: process exit codes (`i32`) are modelled as `Int`, the
recording duration (`u64`) as `Nat` (it is only merged and printed, never
subject to overflowing arithmetic), and the volume multiplier (`f32`) as
`Rat` (it is only merged and printed, no floating-point arithmetic is
performed on it).  Byte strings are `List Nat`.  A Rust `String` is
modelled by its UTF-8 byte content, so `String::from_utf8` is a UTF-8
validity check that returns the very same bytes, as the Rust function does.
-/

namespace Scribe

/-- Application configuration loaded from the TOML file (main.rs lines 13-18). -/
structure Config where
  device : Option String
  duration : Option Nat
  volume : Option Rat
deriving DecidableEq, Repr

/-- `impl Default for Config` (main.rs lines 20-28). -/
def Config.defaultConfig : Config :=
  { device := some "front:CARD=BRIO", duration := some 3600, volume := some 2 }

/-- CLI arguments (main.rs lines 31-46); `config` is the config-file path. -/
structure Args where
  config : String
  device : Option String
  duration : Option Nat
  volume : Option Rat
deriving DecidableEq, Repr

/-- `load_config` (main.rs lines 49-64) with the filesystem and the TOML
parser abstracted as inputs: `readResult` is `fs::read_to_string(path).ok()`
for the (tilde-expanded) path, `parseToml` is `|s| toml::from_str(s).ok()`.
The Rust chains `.ok().and_then(..).unwrap_or_default()`, so every failure
collapses to `Config::default()`. -/
def load_config (readResult : Option String) (parseToml : String → Option Config) : Config :=
  (readResult.bind fun content => parseToml content).getD Config.defaultConfig

/-- `merged_config` (main.rs lines 67-75): CLI value, else file value, else
the hard-coded default. -/
def merged_config (args : Args) (file_config : Config) : String × Nat × Rat :=
  (args.device.or file_config.device |>.getD "front:CARD=BRIO",
   args.duration.or file_config.duration |>.getD 3600,
   args.volume.or file_config.volume |>.getD 2)

/-- The output-file name `format!("output_{}.wav", since_epoch)` (line 97). -/
def outputFileName (sinceEpoch : Nat) : String :=
  "output_" ++ toString sinceEpoch ++ ".wav"

/-- The `ffmpeg` argument vector of main.rs lines 100-114, as a function of
the device, duration, volume and output-file parameters that `main` fills in. -/
def ffmpegArgs (device : String) (duration : Nat) (volume : Rat) (output_file : String) :
    List String :=
  ["-y", "-f", "alsa", "-i", device, "-filter:a", "volume=" ++ toString volume,
   "-t", toString duration, output_file]

/-- The `ffmpeg` argument vector `main` actually builds from the CLI
arguments and the file configuration (lines 87 and 100-114). -/
def captureCmdArgs (args : Args) (file_config : Config) (output_file : String) : List String :=
  let m := merged_config args file_config
  ffmpegArgs m.1 m.2.1 m.2.2 output_file

/-- Spec-side merge ("CLI overrides file overrides default") written as the
spec words it: a case table, used to compare against `merged_config`. -/
def specMerge {α : Type} (cli file : Option α) (dflt : α) : α :=
  match cli, file with
  | some v, _ => v
  | none, some v => v
  | none, none => dflt

/-- A Unix child exit status: either a normal exit with an `i32` code, or a
signal termination (in which case Rust's `ExitStatus::code()` is `None`). -/
inductive ExitStatus where
  | exited (code : Int)
  | signaled (sig : Int)
deriving DecidableEq, Repr

/-- Rust `ExitStatus::code()`: `Some(code)` only for a normal exit. -/
def ExitStatus.code : ExitStatus → Option Int
  | .exited c => some c
  | .signaled _ => none

/-- Rust `ExitStatus::success()`: a normal exit with code zero. -/
def ExitStatus.isSuccess (s : ExitStatus) : Bool := s.code == some 0

/-- Rust `std::process::Output` as produced by `Command::output()`. -/
structure Output where
  status : ExitStatus
  stdout : List Nat
  stderr : List Nat
deriving DecidableEq, Repr

/-- A UTF-8 continuation byte, `0x80..=0xBF`. -/
def isCont (b : Nat) : Bool := decide (0x80 ≤ b ∧ b ≤ 0xBF)

/-- Allowed second byte of a three-byte sequence with lead byte `b`. -/
def cont3Lead (b c1 : Nat) : Bool :=
  if b = 0xE0 then decide (0xA0 ≤ c1 ∧ c1 ≤ 0xBF)
  else if b = 0xED then decide (0x80 ≤ c1 ∧ c1 ≤ 0x9F)
  else isCont c1

/-- Allowed second byte of a four-byte sequence with lead byte `b`. -/
def cont4Lead (b c1 : Nat) : Bool :=
  if b = 0xF0 then decide (0x90 ≤ c1 ∧ c1 ≤ 0xBF)
  else if b = 0xF4 then decide (0x80 ≤ c1 ∧ c1 ≤ 0x8F)
  else isCont c1

/-- Strict UTF-8 validity of a byte sequence (RFC 3629), the check
performed by Rust's `String::from_utf8`. -/
def validUtf8 : List Nat → Bool
  | [] => true
  | b :: rest =>
    if b < 0x80 then validUtf8 rest
    else if b < 0xC2 then false
    else if b < 0xE0 then
      match rest with
      | c1 :: r => isCont c1 && validUtf8 r
      | [] => false
    else if b < 0xF0 then
      match rest with
      | c1 :: c2 :: r => cont3Lead b c1 && isCont c2 && validUtf8 r
      | _ => false
    else if b < 0xF5 then
      match rest with
      | c1 :: c2 :: c3 :: r => cont4Lead b c1 && isCont c2 && isCont c3 && validUtf8 r
      | _ => false
    else false

/-- Rust `String::from_utf8` on a byte vector: succeeds exactly on valid
UTF-8 and returns the same bytes (the Rust function moves the vector into
the `String` unchanged; a Rust `String` is modelled by its byte content,
so `as_bytes` on the result is the identity). -/
def from_utf8 (v : List Nat) : Option (List Nat) :=
  if validUtf8 v then some v else none

/-- Errors `main` can return (`Result<(), Box<dyn Error>>`): `ioError site`
is a propagated `io::Error`/`nix::Error` from the named call site, `message`
is a `String` error built with `.into()`, `utf8Error` is the propagated
`FromUtf8Error` of line 160. -/
inductive RunError where
  | ioError (site : String)
  | message (s : String)
  | utf8Error
deriving DecidableEq, Repr

/-- The capture-failure message of main.rs line 138. -/
def captureFailMsg (code : Int) : String :=
  "Failed to record audio. Exit code: " ++ toString code

/-- Outcomes of every fallible external interaction in main.rs lines
116-179, in source order.  A `false`/`none` means the call fails with an
error; `waitResult`/`cbWaitResult` are the statuses returned by
`Child::wait`, `whisperResult` the `Output` of the `whisper` run. -/
structure Env where
  printProgressOk : Bool          -- print_step, line 116
  readKeyOk : Bool                -- term.read_key(), line 122
  clearLineOk : Bool              -- term.clear_line(), line 123
  writeStopOk : Bool              -- term.write_line(..), line 124
  killOk : Bool                   -- kill(.., SIGINT), line 127
  waitResult : Option ExitStatus  -- ffmpeg_child.wait(), line 128
  printStoppedOk : Bool           -- print_step, lines 132-136
  printTranscribingOk : Bool      -- print_step, line 144
  whisperResult : Option Output   -- Command::new("whisper")..output(), lines 146-156
  printCompleteOk : Bool          -- print_step, line 161
  printCopyingOk : Bool           -- print_step, line 164
  cbSpawnOk : Bool                -- Command::new("cb")..spawn(), lines 165-168
  cbWriteOk : Bool                -- stdin.write_all(..), line 170
  cbWaitResult : Option ExitStatus -- cb_child.wait(), line 172
  printCopiedOk : Bool            -- print_step, line 176
  printDoneOk : Bool              -- print_step, line 178
deriving DecidableEq, Repr

/-- Externally observable effects of one session run.  `sigintSent` is set
once `kill` has delivered SIGINT to the capture child; `captureWaited` once
`ffmpeg_child.wait()` has been called; `whisperInvoked` / `cbInvoked` once
the respective command is executed; `cbStdinWrite` holds the bytes written
to `cb`'s standard input, once `write_all` has succeeded.  (Rust's `Child`
does not terminate the process on drop, so a run that ends with
`sigintSent = false` and `captureWaited = false` leaves the capture child
running.) -/
structure Trace where
  sigintSent : Bool
  captureWaited : Bool
  whisperInvoked : Bool
  cbInvoked : Bool
  cbStdinWrite : Option (List Nat)
deriving DecidableEq, Repr

/-- The empty trace at the point just after the `ffmpeg` spawn. -/
def Trace.initial : Trace :=
  { sigintSent := false, captureWaited := false, whisperInvoked := false,
    cbInvoked := false, cbStdinWrite := none }

/-- The trace at the point where SIGINT has been delivered, the capture
child has been waited on and its exit has been accepted. -/
def postCaptureTrace : Trace :=
  { sigintSent := true, captureWaited := true, whisperInvoked := false,
    cbInvoked := false, cbStdinWrite := none }

/-- Lines 163-175: spawn `cb copy` with a piped stdin (so `cb_child.stdin`
is present and `write_all` runs), write the transcript bytes, wait, and
reject a non-success exit. -/
def deliverPhase (env : Env) (transcription : List Nat) (t : Trace) :
    Except RunError Unit × Trace :=
  if env.printCopyingOk then
    let t1 : Trace := { t with cbInvoked := true }
    if env.cbSpawnOk then
      if env.cbWriteOk then
        let t2 : Trace := { t1 with cbStdinWrite := some transcription }
        match env.cbWaitResult with
        | none => (.error (.ioError "cb_wait"), t2)
        | some cb_exit =>
          if cb_exit.isSuccess then
            if env.printCopiedOk then
              if env.printDoneOk then (.ok (), t2)
              else (.error (.ioError "print_step"), t2)
            else (.error (.ioError "print_step"), t2)
          else (.error (.message "Failed to copy transcription to clipboard."), t2)
      else (.error (.ioError "cb_write"), t1)
    else (.error (.ioError "cb_spawn"), t1)
  else (.error (.ioError "print_step"), t)

/-- Lines 144-161: run `whisper`, reject a non-success exit, decode its
standard output as UTF-8, then hand the transcript to the delivery phase. -/
def transcribePhase (env : Env) (t : Trace) : Except RunError Unit × Trace :=
  if env.printTranscribingOk then
    let t1 : Trace := { t with whisperInvoked := true }
    match env.whisperResult with
    | none => (.error (.ioError "whisper_output"), t1)
    | some whisper_output =>
      if whisper_output.status.isSuccess then
        match from_utf8 whisper_output.stdout with
        | none => (.error .utf8Error, t1)
        | some transcription =>
          if env.printCompleteOk then deliverPhase env transcription t1
          else (.error (.ioError "print_step"), t1)
      else (.error (.message "Whisper transcription failed."), t1)
  else (.error (.ioError "print_step"), t)

/-- Lines 116-179 of `main`, starting just after the `ffmpeg` spawn:
terminal interaction, SIGINT delivery, wait, exit-code validation (codes
130 and 255 accepted as graceful SIGINT terminations, code 0 as clean
exit, any other code or a missing code rejected), then transcription and
delivery. -/
def runSession (env : Env) : Except RunError Unit × Trace :=
  if env.printProgressOk then
    if env.readKeyOk then
      if env.clearLineOk then
        if env.writeStopOk then
          if env.killOk then
            let t1 : Trace := { Trace.initial with sigintSent := true }
            match env.waitResult with
            | none => (.error (.ioError "ffmpeg_wait"), { t1 with captureWaited := true })
            | some ffmpeg_exit =>
              let t2 : Trace := { t1 with captureWaited := true }
              match ffmpeg_exit.code with
              | some code =>
                if code = 130 ∨ code = 255 then
                  if env.printStoppedOk then transcribePhase env t2
                  else (.error (.ioError "print_step"), t2)
                else if code ≠ 0 then
                  (.error (.message (captureFailMsg code)), t2)
                else transcribePhase env t2
              | none => (.error (.message "ffmpeg terminated without an exit code"), t2)
          else (.error (.ioError "kill"), Trace.initial)
        else (.error (.ioError "write_line"), Trace.initial)
      else (.error (.ioError "clear_line"), Trace.initial)
    else (.error (.ioError "read_key"), Trace.initial)
  else (.error (.ioError "print_step"), Trace.initial)

/-- `beginsWith n l`: the character list `l` starts with `n`. -/
def beginsWith : List Char → List Char → Bool
  | [], _ => true
  | _ :: _, [] => false
  | a :: as, b :: bs => a == b && beginsWith as bs

/-- `containsSeq n l`: `n` occurs as a contiguous run inside `l`. -/
def containsSeq (needle : List Char) : List Char → Bool
  | [] => beginsWith needle []
  | c :: rest => beginsWith needle (c :: rest) || containsSeq needle rest

/-- `strContains hay needle`: `needle` occurs as a substring of `hay`. -/
def strContains (hay needle : String) : Bool :=
  containsSeq needle.data hay.data

/-! ## Concrete environments used by witnesses and counterexamples -/

/-- The UTF-8 bytes of "hello world". -/
def helloBytes : List Nat := [104, 101, 108, 108, 111, 32, 119, 111, 114, 108, 100]

/-- A fully successful environment: every terminal call succeeds, `ffmpeg`
exits with code 130 after SIGINT, `whisper` exits 0 with output
"hello world", `cb` exits 0. -/
def envAllOk : Env :=
  { printProgressOk := true, readKeyOk := true, clearLineOk := true,
    writeStopOk := true, killOk := true, waitResult := some (.exited 130),
    printStoppedOk := true, printTranscribingOk := true,
    whisperResult := some { status := .exited 0, stdout := helloBytes, stderr := [] },
    printCompleteOk := true, printCopyingOk := true, cbSpawnOk := true,
    cbWriteOk := true, cbWaitResult := some (.exited 0),
    printCopiedOk := true, printDoneOk := true }

/-- Like `envAllOk`, but `ffmpeg` is terminated by the SIGINT signal itself
(signal number 2), so its `ExitStatus::code()` is `None`. -/
def envSignalExit : Env := { envAllOk with waitResult := some (.signaled 2) }

/-- Like `envAllOk`, but `ffmpeg` is killed by SIGKILL (signal 9): again no
exit code is available. -/
def envKilled : Env := { envAllOk with waitResult := some (.signaled 9) }

/-- Like `envAllOk`, but `ffmpeg` exits with code 1 after SIGINT. -/
def envCaptureFail : Env := { envAllOk with waitResult := some (.exited 1) }

/-- Like `envAllOk`, but `whisper` exits with code 7. -/
def envWhisperFail : Env :=
  { envAllOk with whisperResult := some { status := .exited 7, stdout := [], stderr := [] } }

/-- Like `envAllOk`, but `cb` exits with code 3. -/
def envCbFail : Env := { envAllOk with cbWaitResult := some (.exited 3) }

/-- Like `envAllOk`, but the key-press read fails with an I/O error. -/
def envKeyFail : Env := { envAllOk with readKeyOk := false }

/-- Like `envAllOk`, but `ffmpeg` exits cleanly with code 0. -/
def envCaptureZero : Env := { envAllOk with waitResult := some (.exited 0) }


/-! ## Helper lemmas -/

theorem beginsWith_refl (l : List Char) : beginsWith l l = true := by
  induction l with
  | nil => rfl
  | cons a as ih => simp [beginsWith, ih]

theorem containsSeq_of_beginsWith (p n l : List Char) (h : beginsWith n l = true) :
    containsSeq n (p ++ l) = true := by
  induction p with
  | nil =>
    cases l with
    | nil => simpa [containsSeq] using h
    | cons c rest => simp [containsSeq, h]
  | cons c p ih => simp [containsSeq, ih]

theorem strContains_append_right (p s : String) : strContains (p ++ s) s = true := by
  have hdata : (p ++ s).data = p.data ++ s.data := by
    cases p; cases s; rfl
  simp only [strContains, hdata]
  exact containsSeq_of_beginsWith p.data s.data s.data (beginsWith_refl s.data)

theorem from_utf8_some {v w : List Nat} (h : from_utf8 v = some w) : w = v := by
  unfold from_utf8 at h
  split at h
  · exact (Option.some.inj h).symm
  · exact absurd h (by simp)

theorem deliverPhase_whisperInvoked (env : Env) (tr : List Nat) (t : Trace) :
    ((deliverPhase env tr t).2).whisperInvoked = t.whisperInvoked := by
  unfold deliverPhase
  repeat' split
  all_goals rfl

theorem deliverPhase_cbInvoked (env : Env) (tr : List Nat) (t : Trace)
    (h : env.printCopyingOk = true) :
    ((deliverPhase env tr t).2).cbInvoked = true := by
  unfold deliverPhase
  rw [h]
  simp only [if_true]
  repeat' split
  all_goals rfl

theorem transcribePhase_whisperInvoked (env : Env) (t : Trace)
    (h : env.printTranscribingOk = true) :
    ((transcribePhase env t).2).whisperInvoked = true := by
  unfold transcribePhase
  rw [h]
  simp only [if_true]
  split
  · rfl
  · split
    · split
      · rfl
      · split
        · rw [deliverPhase_whisperInvoked]
        · rfl
    · rfl

/-! ## Claim theorems -/

/-- C1 counterexample: with every host interaction succeeding and the
capture child terminated by the SIGINT signal itself (so no exit code is
reported), `main` returns the error "ffmpeg terminated without an exit
code" and never invokes `whisper` — contradicting the claim that such an
exit is treated as success and the session proceeds to transcription. -/
theorem C1_counterexample :
    (runSession envSignalExit).1 =
        .error (.message "ffmpeg terminated without an exit code")
      ∧ ((runSession envSignalExit).2).whisperInvoked = false :=
  ⟨rfl, rfl⟩

/-- C1 (amended): when the capture child exits because of the signal itself
(a signal termination, so `ExitStatus::code()` is `None`), the orchestrator
treats the exit as a capture failure — it returns the error "ffmpeg
terminated without an exit code" and the transcription stage is never
invoked; only exit codes 0, 130 and 255 are accepted as success. -/
theorem C1_signal_exit_is_failure (env : Env) (sig : Int)
    (h1 : env.printProgressOk = true) (h2 : env.readKeyOk = true)
    (h3 : env.clearLineOk = true) (h4 : env.writeStopOk = true)
    (h5 : env.killOk = true) (hw : env.waitResult = some (.signaled sig)) :
    (runSession env).1 = .error (.message "ffmpeg terminated without an exit code")
      ∧ ((runSession env).2).whisperInvoked = false := by
  unfold runSession
  rw [h1, h2, h3, h4, h5, hw]
  simp [ExitStatus.code, Trace.initial]

/-- C1 witness: the amended theorem applied to the concrete environment
`envSignalExit` (capture child terminated by signal 2). -/
theorem C1_witness :
    (runSession envSignalExit).1 =
        .error (.message "ffmpeg terminated without an exit code")
      ∧ ((runSession envSignalExit).2).whisperInvoked = false :=
  C1_signal_exit_is_failure envSignalExit 2 rfl rfl rfl rfl rfl rfl

/-- C2 (confirmed): when the capture child exits with code 130, 255 or 0
after the SIGINT was delivered (and the terminal interactions succeed), the
session does not fail at capture validation and the transcription stage is
invoked. -/
theorem C2_accepted_codes_reach_whisper (env : Env) (c : Int)
    (h1 : env.printProgressOk = true) (h2 : env.readKeyOk = true)
    (h3 : env.clearLineOk = true) (h4 : env.writeStopOk = true)
    (h5 : env.killOk = true) (hw : env.waitResult = some (.exited c))
    (hc : c = 130 ∨ c = 255 ∨ c = 0)
    (hps : env.printStoppedOk = true) (hpt : env.printTranscribingOk = true) :
    ((runSession env).2).whisperInvoked = true := by
  unfold runSession
  rw [h1, h2, h3, h4, h5, hw]
  rcases hc with rfl | rfl | rfl <;>
    simp [ExitStatus.code, hps, transcribePhase_whisperInvoked _ _ hpt]

/-- C2 witness: the theorem applied to `envAllOk`, whose capture child
exits with code 130. -/
theorem C2_witness : ((runSession envAllOk).2).whisperInvoked = true :=
  C2_accepted_codes_reach_whisper envAllOk 130 rfl rfl rfl rfl rfl rfl
    (Or.inl rfl) rfl rfl

/-- C4 (confirmed): when the capture child exits with a non-zero code other
than 130 and 255, the session fails with the capture error whose message
contains that exit code, and the transcription stage is never invoked. -/
theorem C4_bad_code_fails_before_whisper (env : Env) (c : Int)
    (h1 : env.printProgressOk = true) (h2 : env.readKeyOk = true)
    (h3 : env.clearLineOk = true) (h4 : env.writeStopOk = true)
    (h5 : env.killOk = true) (hw : env.waitResult = some (.exited c))
    (hc0 : c ≠ 0) (hc130 : c ≠ 130) (hc255 : c ≠ 255) :
    (runSession env).1 = .error (.message (captureFailMsg c))
      ∧ strContains (captureFailMsg c) (toString c) = true
      ∧ ((runSession env).2).whisperInvoked = false := by
  refine ⟨?_, strContains_append_right "Failed to record audio. Exit code: " (toString c), ?_⟩ <;>
    · unfold runSession
      rw [h1, h2, h3, h4, h5, hw]
      simp [ExitStatus.code, hc0, hc130, hc255, Trace.initial]

/-- C4 witness: the theorem applied to `envCaptureFail`, whose capture
child exits with code 1. -/
theorem C4_witness :
    (runSession envCaptureFail).1 = .error (.message (captureFailMsg 1))
      ∧ strContains (captureFailMsg 1) (toString (1 : Int)) = true
      ∧ ((runSession envCaptureFail).2).whisperInvoked = false :=
  C4_bad_code_fails_before_whisper envCaptureFail 1 rfl rfl rfl rfl rfl rfl
    (by decide) (by decide) (by decide)

/-- C7 (confirmed): when the capture child's exit status carries no exit
code at all (a signal termination), the session ends in the "unknown"
capture failure — the error "ffmpeg terminated without an exit code" — and
not in success (the transcription stage is never invoked). -/
theorem C7_no_code_is_unknown_failure (env : Env) (st : ExitStatus)
    (h1 : env.printProgressOk = true) (h2 : env.readKeyOk = true)
    (h3 : env.clearLineOk = true) (h4 : env.writeStopOk = true)
    (h5 : env.killOk = true) (hw : env.waitResult = some st)
    (hcode : st.code = none) :
    (runSession env).1 = .error (.message "ffmpeg terminated without an exit code")
      ∧ ((runSession env).2).whisperInvoked = false := by
  unfold runSession
  rw [h1, h2, h3, h4, h5, hw]
  cases st with
  | exited c => simp [ExitStatus.code] at hcode
  | signaled s => simp [ExitStatus.code, Trace.initial]

/-- C7 witness: the theorem applied to `envKilled`, whose capture child is
killed by signal 9 and so has no exit code. -/
theorem C7_witness :
    (runSession envKilled).1 = .error (.message "ffmpeg terminated without an exit code")
      ∧ ((runSession envKilled).2).whisperInvoked = false :=
  C7_no_code_is_unknown_failure envKilled (.signaled 9) rfl rfl rfl rfl rfl rfl rfl

/-- Auxiliary: the source's merge (`Option::or` then `unwrap_or`) agrees
with the spec's case table. -/
theorem specMerge_eq_or_getD {α : Type} (cli file : Option α) (d : α) :
    (cli.or file).getD d = specMerge cli file d := by
  cases cli <;> cases file <;> rfl

/-- C6 (confirmed): for every combination of CLI flags and
configuration-file values, the `ffmpeg` invocation is built from exactly
the merged configuration in which a CLI value wins over a file value, a
file value wins over the default, and the defaults are
device = "front:CARD=BRIO", duration = 3600, volume = 2.0. -/
theorem C6_capture_params_merged (a : Args) (c : Config) (f : String) :
    captureCmdArgs a c f =
      ffmpegArgs (specMerge a.device c.device "front:CARD=BRIO")
        (specMerge a.duration c.duration 3600)
        (specMerge a.volume c.volume 2) f := by
  simp [captureCmdArgs, merged_config, specMerge_eq_or_getD]

/-- C9 (confirmed): configuration loading never fails — an unreadable file
(`none` read result) or an unparsable file (the TOML parse yields `none`)
both silently produce the full built-in default configuration
device = "front:CARD=BRIO", duration = 3600, volume = 2.0. -/
theorem C9_config_failure_yields_default (parseToml : String → Option Config)
    (s : String) (hp : parseToml s = none) :
    load_config none parseToml = Config.defaultConfig
      ∧ load_config (some s) parseToml = Config.defaultConfig
      ∧ Config.defaultConfig =
          { device := some "front:CARD=BRIO", duration := some 3600, volume := some 2 } := by
  refine ⟨rfl, ?_, rfl⟩
  simp [load_config, hp]

/-- C9 witness: the theorem applied to a parser that rejects everything
and the concrete file content "not toml". -/
theorem C9_witness :
    load_config none (fun _ => none) = Config.defaultConfig
      ∧ load_config (some "not toml") (fun _ => none) = Config.defaultConfig
      ∧ Config.defaultConfig =
          { device := some "front:CARD=BRIO", duration := some 3600, volume := some 2 } :=
  C9_config_failure_yields_default (fun _ => none) "not toml" rfl

/-- C10 (confirmed): if an error occurs after the capture child is spawned
but before it is waited on — the key-press read fails, or the SIGINT
delivery itself fails — the orchestrator returns that error having neither
delivered the termination signal nor waited on the child, and without
invoking any later stage, so the capture child is left running. -/
theorem C10_early_error_leaves_child_running (env : Env)
    (h : env.readKeyOk = false ∨ env.killOk = false) :
    (∃ e, (runSession env).1 = Except.error e)
      ∧ ((runSession env).2).sigintSent = false
      ∧ ((runSession env).2).captureWaited = false
      ∧ ((runSession env).2).whisperInvoked = false
      ∧ ((runSession env).2).cbInvoked = false := by
  unfold runSession
  rcases h with h | h <;>
    · repeat' split
      all_goals simp_all [Trace.initial]

/-- C10 witness: the theorem applied to `envKeyFail`, where the key-press
read fails. -/
theorem C10_witness :
    (∃ e, (runSession envKeyFail).1 = Except.error e)
      ∧ ((runSession envKeyFail).2).sigintSent = false
      ∧ ((runSession envKeyFail).2).captureWaited = false
      ∧ ((runSession envKeyFail).2).whisperInvoked = false
      ∧ ((runSession envKeyFail).2).cbInvoked = false :=
  C10_early_error_leaves_child_running envKeyFail (Or.inl rfl)

/-- Auxiliary: every run either reaches the transcription phase with the
post-capture trace, or stops earlier with an error and with no
transcription/delivery effect recorded. -/
theorem runSession_cases (env : Env) :
    runSession env = transcribePhase env postCaptureTrace
      ∨ (((runSession env).2).whisperInvoked = false
          ∧ ((runSession env).2).cbInvoked = false
          ∧ ((runSession env).2).cbStdinWrite = none
          ∧ ∃ e, (runSession env).1 = Except.error e) := by
  unfold runSession
  repeat' split
  all_goals simp [Trace.initial, postCaptureTrace]

/-- Auxiliary: if the capture child was waited on, the five host
interactions before the wait all succeeded. -/
theorem runSession_captureWaited_pre (env : Env)
    (h : ((runSession env).2).captureWaited = true) :
    env.printProgressOk = true ∧ env.readKeyOk = true ∧ env.clearLineOk = true
      ∧ env.writeStopOk = true ∧ env.killOk = true := by
  unfold runSession at h
  repeat' split at h
  all_goals simp_all [Trace.initial]

/-- Auxiliary: the transcription phase either hands the decoded `whisper`
standard-output bytes to the delivery phase, or stops with an error
without writing to `cb`'s stdin. -/
theorem transcribePhase_cases (env : Env) (t : Trace) (ht : t.cbStdinWrite = none) :
    (∃ out tr, env.whisperResult = some out ∧ from_utf8 out.stdout = some tr
        ∧ transcribePhase env t = deliverPhase env tr { t with whisperInvoked := true })
      ∨ (((transcribePhase env t).2).cbStdinWrite = none
          ∧ ∃ e, (transcribePhase env t).1 = Except.error e) := by
  unfold transcribePhase
  repeat' split
  all_goals first
    | (exact Or.inl ⟨_, _, by assumption, by assumption, rfl⟩)
    | simp_all

/-- Auxiliary: whatever the delivery phase ends up reporting, any byte
sequence recorded as written to `cb`'s standard input is exactly the
transcript the phase was given. -/
theorem deliverPhase_write_eq (env : Env) (tr : List Nat) (t : Trace) (bs : List Nat)
    (ht : t.cbStdinWrite = none)
    (h : ((deliverPhase env tr t).2).cbStdinWrite = some bs) : bs = tr := by
  revert h
  unfold deliverPhase
  repeat' split
  all_goals intro h
  all_goals simp_all

/-- Auxiliary: a successful delivery phase has written exactly the
transcript bytes it was given to `cb`'s standard input. -/
theorem deliverPhase_ok_write (env : Env) (tr : List Nat) (t : Trace)
    (h : (deliverPhase env tr t).1 = Except.ok ()) :
    ((deliverPhase env tr t).2).cbStdinWrite = some tr := by
  revert h
  unfold deliverPhase
  repeat' split
  all_goals intro h
  all_goals simp_all

/-- Auxiliary: a successful transcription phase forwards exactly the bytes
of the `whisper` standard output to the delivery write. -/
theorem transcribePhase_ok_write (env : Env) (t : Trace)
    (h : (transcribePhase env t).1 = Except.ok ()) :
    ∃ out, env.whisperResult = some out
      ∧ ((transcribePhase env t).2).cbStdinWrite = some out.stdout := by
  cases hpt : env.printTranscribingOk with
  | false => simp [transcribePhase, hpt] at h
  | true =>
    cases hwr : env.whisperResult with
    | none => simp [transcribePhase, hpt, hwr] at h
    | some out =>
      cases hsu : out.status.isSuccess with
      | false => simp [transcribePhase, hpt, hwr, hsu] at h
      | true =>
        cases hdec : from_utf8 out.stdout with
        | none => simp [transcribePhase, hpt, hwr, hsu, hdec] at h
        | some transcription =>
          cases hpc : env.printCompleteOk with
          | false => simp [transcribePhase, hpt, hwr, hsu, hdec, hpc] at h
          | true =>
            have hred : transcribePhase env t =
                deliverPhase env transcription { t with whisperInvoked := true } := by
              simp [transcribePhase, hpt, hwr, hsu, hdec, hpc]
            rw [hred] at h ⊢
            exact ⟨out, rfl, by rw [deliverPhase_ok_write _ _ _ h, from_utf8_some hdec]⟩

/-- Auxiliary: if the delivery write happened and `cb` then exited with a
non-zero code, the run ends with the fixed clipboard-failure message. -/
theorem deliverPhase_wait_fail (env : Env) (tr : List Nat) (t : Trace) (c : Int)
    (hcw : env.cbWaitResult = some (.exited c)) (hc : c ≠ 0)
    (hsw : (((deliverPhase env tr t).2).cbStdinWrite).isSome = true)
    (ht : t.cbStdinWrite = none) :
    (deliverPhase env tr t).1 =
      .error (.message "Failed to copy transcription to clipboard.") := by
  cases hpc : env.printCopyingOk with
  | false => simp [deliverPhase, hpc, ht] at hsw
  | true =>
    cases hsp : env.cbSpawnOk with
    | false => simp [deliverPhase, hpc, hsp, ht] at hsw
    | true =>
      cases hwk : env.cbWriteOk with
      | false => simp [deliverPhase, hpc, hsp, hwk, ht] at hsw
      | true =>
        simp [deliverPhase, hpc, hsp, hwk, hcw, ExitStatus.isSuccess, ExitStatus.code, hc]

/-- C3 (confirmed): in every run in which capture validation and
transcription succeeded (which is forced whenever the delivery write
happens at all, and regardless of whether delivery afterwards succeeds or
fails), the byte sequence written to `cb`'s standard input is exactly the
byte sequence `whisper` produced on its standard output. -/
theorem C3_transcript_bytes_forwarded (env : Env) (out : Output) (bs : List Nat)
    (hwr : env.whisperResult = some out)
    (hw : ((runSession env).2).cbStdinWrite = some bs) :
    bs = out.stdout := by
  rcases runSession_cases env with hred | ⟨_, _, hnone, _⟩
  · rw [hred] at hw
    rcases transcribePhase_cases env postCaptureTrace rfl with
      ⟨out2, tr, hwr2, hdec, hred2⟩ | ⟨hnone2, e, herr⟩
    · rw [hred2] at hw
      rw [hwr] at hwr2
      obtain rfl : out = out2 := Option.some.inj hwr2
      exact (deliverPhase_write_eq env tr _ bs rfl hw).trans (from_utf8_some hdec)
    · rw [hnone2] at hw
      exact absurd hw (by simp)
  · rw [hnone] at hw
    exact absurd hw (by simp)

/-- C3 witness: the theorem applied to `envCbFail`, where `whisper` outputs
the bytes of "hello world", those bytes are written to `cb`'s standard
input, and delivery then fails (`cb` exits 3). -/
theorem C3_witness :
    helloBytes = (Output.mk (.exited 0) helloBytes []).stdout :=
  C3_transcript_bytes_forwarded envCbFail (Output.mk (.exited 0) helloBytes [])
    helloBytes rfl rfl

/-- C5 (confirmed): if the transcription stage is invoked and `whisper`
exits with a non-success status, the session ends with the transcription
failure "Whisper transcription failed.", the delivery stage (`cb`) is never
invoked and nothing is written to its standard input — and since only `cb`
touches the clipboard, the clipboard is not mutated. -/
theorem C5_transcription_failure_stops (env : Env) (out : Output)
    (hwr : env.whisperResult = some out) (hfail : out.status.isSuccess = false)
    (hinv : ((runSession env).2).whisperInvoked = true) :
    (runSession env).1 = .error (.message "Whisper transcription failed.")
      ∧ ((runSession env).2).cbInvoked = false
      ∧ ((runSession env).2).cbStdinWrite = none := by
  rcases runSession_cases env with hred | ⟨hninv, _, _, _⟩
  · cases hpt : env.printTranscribingOk with
    | false =>
      rw [hred] at hinv
      simp [transcribePhase, hpt, postCaptureTrace] at hinv
    | true =>
      rw [hred] at hinv ⊢
      simp [transcribePhase, hpt, hwr, hfail, postCaptureTrace]
  · rw [hninv] at hinv
    exact absurd hinv (by simp)

/-- C5 witness: the theorem applied to `envWhisperFail`, where `whisper`
exits with code 7. -/
theorem C5_witness :
    (runSession envWhisperFail).1 = .error (.message "Whisper transcription failed.")
      ∧ ((runSession envWhisperFail).2).cbInvoked = false
      ∧ ((runSession envWhisperFail).2).cbStdinWrite = none :=
  C5_transcription_failure_stops envWhisperFail
    { status := .exited 7, stdout := [], stderr := [] } rfl rfl rfl

/-- C8 counterexample: a run that fails because `whisper` exits with the
known non-zero code 7 reports the fixed message "Whisper transcription
failed.", which does not include that exit code — contradicting the claim
that every stage failure with a known non-zero exit code reports the raw
code. -/
theorem C8_counterexample :
    (runSession envWhisperFail).1 = .error (.message "Whisper transcription failed.")
      ∧ strContains "Whisper transcription failed." (toString (7 : Int)) = false :=
  ⟨rfl, rfl⟩

/-- C8 (amended): only the capture failure includes the stage's raw exit
code in its message; a transcription failure and a delivery failure report
the fixed messages "Whisper transcription failed." and "Failed to copy
transcription to clipboard." respectively, regardless of the exit code. -/
theorem C8_amended_messages (env : Env) (c : Int) (out : Output) :
    (((runSession env).2).captureWaited = true →
        env.waitResult = some (.exited c) → c ≠ 0 → c ≠ 130 → c ≠ 255 →
        (runSession env).1 = .error (.message (captureFailMsg c))
          ∧ strContains (captureFailMsg c) (toString c) = true)
      ∧ (((runSession env).2).whisperInvoked = true →
          env.whisperResult = some out → out.status.isSuccess = false →
          (runSession env).1 = .error (.message "Whisper transcription failed."))
      ∧ ((((runSession env).2).cbStdinWrite).isSome = true →
          env.cbWaitResult = some (.exited c) → c ≠ 0 →
          (runSession env).1 =
            .error (.message "Failed to copy transcription to clipboard.")) := by
  refine ⟨?_, ?_, ?_⟩
  · intro hcw hw hc0 hc130 hc255
    obtain ⟨h1, h2, h3, h4, h5⟩ := runSession_captureWaited_pre env hcw
    refine ⟨?_, strContains_append_right "Failed to record audio. Exit code: " (toString c)⟩
    unfold runSession
    rw [h1, h2, h3, h4, h5, hw]
    simp [ExitStatus.code, hc0, hc130, hc255]
  · intro hinv hwr hfail
    rcases runSession_cases env with hred | ⟨hninv, _, _, _⟩
    · cases hpt : env.printTranscribingOk with
      | false =>
        rw [hred] at hinv
        simp [transcribePhase, hpt, postCaptureTrace] at hinv
      | true =>
        rw [hred] at hinv ⊢
        simp [transcribePhase, hpt, hwr, hfail, postCaptureTrace]
    · rw [hninv] at hinv
      exact absurd hinv (by simp)
  · intro hsw hcw hc
    rcases runSession_cases env with hred | ⟨_, _, hnone, _⟩
    · rw [hred] at hsw ⊢
      rcases transcribePhase_cases env postCaptureTrace rfl with
        ⟨out2, tr, hwr2, hdec2, hred2⟩ | ⟨hnone2, e, herr⟩
      · rw [hred2] at hsw ⊢
        exact deliverPhase_wait_fail env tr _ c hcw hc hsw rfl
      · rw [hnone2] at hsw
        exact absurd hsw (by simp)
    · rw [hnone] at hsw
      exact absurd hsw (by simp)

/-- C8 witness: the amended theorem applied to the concrete environments
`envCaptureFail` (ffmpeg exits 1), `envWhisperFail` (whisper exits 7) and
`envCbFail` (cb exits 3). -/
theorem C8_witness :
    ((runSession envCaptureFail).1 = .error (.message (captureFailMsg 1))
        ∧ strContains (captureFailMsg 1) (toString (1 : Int)) = true)
      ∧ (runSession envWhisperFail).1 = .error (.message "Whisper transcription failed.")
      ∧ (runSession envCbFail).1 =
          .error (.message "Failed to copy transcription to clipboard.") :=
  ⟨(C8_amended_messages envCaptureFail 1
      { status := .exited 0, stdout := [], stderr := [] }).1 rfl rfl
      (by decide) (by decide) (by decide),
   (C8_amended_messages envWhisperFail 7
      { status := .exited 7, stdout := [], stderr := [] }).2.1 rfl rfl rfl,
   (C8_amended_messages envCbFail 3
      { status := .exited 0, stdout := [], stderr := [] }).2.2 rfl rfl (by decide)⟩

end Scribe
